import Mathlib

/-
A shallow embedding of the `oop` Go package (src/oop.go, src/friendly.go).

Modelling conventions, fixed once for the whole file:

* Go machine addresses are modelled as cell indices into an explicit heap
  `List Cell`; a fresh allocation appends a cell at index `length`.
  A possibly-nil raw pointer (`unsafe.Pointer`, a pointer field) is an
  `Option Nat` (`none` = the nil pointer).
* A Go `interface{}` value is modelled by `GoValue`.  Go erases the static
  type at the `interface{}` boundary: a nil interface arrives as the untyped
  absence sentinel `GoValue.nilV`, and a non-nil interface arrives as its
  dynamic value.  Consequently `reflect.ValueOf` never observes the
  `Interface` kind, exactly as in Go; the model has no interface-kind value
  constructor.
* `reflect.Type` is modelled by `GoType`.  The Go runtime interns one
  `rtype` per type, so `reflect.ValueOf(t).Pointer()` is a deterministic
  stable key of the type; `GoType.rtypeAddr` is that key.
* Struct field types are restricted to the basic kinds (`int`, `string`,
  `bool`), which covers every struct type defined in this repository
  (`TestStruct{Value int}`, `TestDog{Name string}`, `TestCat{Name string}`).
* A Go panic (from the reflect package or from an explicit `panic` call) is
  an `Except.error` carrying a `Fault`; reading memory that does not hold an
  object of the asserted layout (the unchecked `(*Klass)(ptr)` reinterpret
  in `From`) is `Fault.undefinedBehavior`.
-/

namespace Oop

/-- Runtime kinds, the subset of `reflect.Kind` the package branches on. -/
inductive GoKind where
  | structK
  | ifaceK
  | ptrK
  | sliceK
  | mapK
  | chanK
  | funcK
  | intK
  | stringK
  | boolK
deriving DecidableEq, Repr

/-- Field types of the struct types in this repository (all fields are of a
basic kind). -/
inductive BasicType where
  | intB
  | stringB
  | boolB
deriving DecidableEq, Repr

/-- Model of `reflect.Type`.  Named types carry the address of their
interned runtime type record (`rtypeAddr`); a struct type carries its field
types and its value-receiver and pointer-receiver method sets. -/
inductive GoType where
  | structT (name : String) (rtypeAddr : Nat) (fieldTypes : List BasicType)
      (valueMethods ptrMethods : List String)
  | ifaceT (name : String) (rtypeAddr : Nat) (methods : List String)
  | ptrT (elem : GoType)
  | sliceT (elem : GoType)
  | mapT (key elem : GoType)
  | chanT (elem : GoType)
  | funcT (rtypeAddr : Nat)
  | intT
  | stringT
  | boolT
deriving DecidableEq, Repr

/-- The `reflect.Kind` of a type. -/
def GoType.kind : GoType → GoKind
  | .structT _ _ _ _ _ => .structK
  | .ifaceT _ _ _ => .ifaceK
  | .ptrT _ => .ptrK
  | .sliceT _ => .sliceK
  | .mapT _ _ => .mapK
  | .chanT _ => .chanK
  | .funcT _ => .funcK
  | .intT => .intK
  | .stringT => .stringK
  | .boolT => .boolK

/-- Function `reflect.Type.Name()`: nonempty only for named (defined) types. -/
def GoType.typeName : GoType → String
  | .structT n _ _ _ _ => n
  | .ifaceT n _ _ => n
  | _ => ""

/-- The stable identity key of a type: the address of its interned runtime
type record.  The Go runtime creates exactly one `rtype` per type, so this
is a deterministic function of the type; derived types get derived keys. -/
def GoType.rtypeAddr : GoType → Nat
  | .structT _ id _ _ _ => Nat.pair 0 id
  | .ifaceT _ id _ => Nat.pair 1 id
  | .ptrT e => Nat.pair 2 e.rtypeAddr
  | .sliceT e => Nat.pair 3 e.rtypeAddr
  | .mapT k e => Nat.pair 4 (Nat.pair k.rtypeAddr e.rtypeAddr)
  | .chanT e => Nat.pair 5 e.rtypeAddr
  | .funcT id => Nat.pair 6 id
  | .intT => 7
  | .stringT => 8
  | .boolT => 9

/-- A value of a basic kind. -/
inductive BasicValue where
  | intV (n : Int)
  | strV (s : String)
  | boolV (b : Bool)
deriving DecidableEq, Repr

/-- A Go value as seen through `interface{}` (after interface erasure).
Reference-kind values carry an `Option Nat` reference (`none` = nil). -/
inductive GoValue where
  | nilV
  | ptrV (elem : GoType) (a : Option Nat)
  | structV (t : GoType) (fields : List BasicValue)
  | sliceV (elem : GoType) (a : Option Nat)
  | mapV (key elem : GoType) (a : Option Nat)
  | chanV (elem : GoType) (a : Option Nat)
  | funcV (id : Nat) (a : Option Nat)
  | basicV (b : BasicValue)
deriving DecidableEq, Repr

/-- Functions `reflect.TypeOf` / `reflect.ValueOf(v).Type()`: the dynamic type of an
erased value; `none` for the untyped nil (the zero `reflect.Value`). -/
def typeOf : GoValue → Option GoType
  | .nilV => none
  | .ptrV e _ => some (.ptrT e)
  | .structV t _ => some t
  | .sliceV e _ => some (.sliceT e)
  | .mapV k e _ => some (.mapT k e)
  | .chanV e _ => some (.chanT e)
  | .funcV id _ => some (.funcT id)
  | .basicV (.intV _) => some .intT
  | .basicV (.strV _) => some .stringT
  | .basicV (.boolV _) => some .boolT

/-- Whether a value has pointer kind (`reflect.ValueOf(v).Kind() == reflect.Ptr`). -/
def isPtrValue : GoValue → Bool
  | .ptrV _ _ => true
  | _ => false

/-- The method set of a type: value methods of a struct type, pointer
methods of a pointer-to-struct type, declared methods of an interface type. -/
def methodSet : GoType → List String
  | .structT _ _ _ vm _ => vm
  | .ptrT (.structT _ _ _ _ pm) => pm
  | .ifaceT _ _ ms => ms
  | _ => []

/-- Function `reflect.Type.Implements` restricted to an interface target: the
target's methods are all in the method set.  (The reflect function panics
on a non-interface target; callers below model that panic at the call
site.) -/
def implementsB (t : GoType) (target : GoType) : Bool :=
  match target with
  | .ifaceT _ _ ms => ms.all fun m => (methodSet t).contains m
  | _ => false

/-- Function `reflect.Type.AssignableTo` for the named types of this model: identical
types, or interface satisfaction. -/
def assignableTo (t : GoType) (target : GoType) : Bool :=
  t = target || implementsB t target

/-- The zero basic value of a basic field type (`reflect.Zero`). -/
def zeroBasic : BasicType → BasicValue
  | .intB => .intV 0
  | .stringB => .strV ""
  | .boolB => .boolV false

/-- Function `reflect.Zero(t).Interface()`: the zero value of a type, as an erased
value.  The zero of an interface type is a nil interface, which erases to
the untyped absence sentinel. -/
def zeroValue : GoType → GoValue
  | .structT n id fts vm pm => .structV (.structT n id fts vm pm) (fts.map zeroBasic)
  | .ifaceT _ _ _ => .nilV
  | .ptrT e => .ptrV e none
  | .sliceT e => .sliceV e none
  | .mapT k e => .mapV k e none
  | .chanT e => .chanV e none
  | .funcT id => .funcV id none
  | .intT => .basicV (.intV 0)
  | .stringT => .basicV (.strV "")
  | .boolT => .basicV (.boolV false)

/-- Faults: Go panics (with their message) and undefined behaviour from
unchecked `unsafe` memory reinterpretation.  `doubleRelease` is the fault
the specification's error taxonomy demands of a second `Deinit`. -/
inductive Fault where
  | panic (msg : String)
  | undefinedBehavior
  | doubleRelease
deriving DecidableEq, Repr

section Heap

variable {α : Type}

/-- Read a cell of a heap modelled as a list (out of range reads `none`). -/
def listRead : List α → Nat → Option α
  | [], _ => none
  | c :: _, 0 => some c
  | _ :: h, n + 1 => listRead h n

/-- Overwrite a cell of a heap modelled as a list (out of range: no-op). -/
def listWrite : List α → Nat → α → List α
  | [], _, _ => []
  | _ :: h, 0, c => c :: h
  | x :: h, n + 1, c => x :: listWrite h n c

theorem listRead_length (l : List α) : listRead l l.length = none := by
  induction l with
  | nil => rfl
  | cons x h ih => simpa [listRead] using ih

theorem listRead_append_lt (l l2 : List α) (i : Nat) (hi : i < l.length) :
    listRead (l ++ l2) i = listRead l i := by
  induction l generalizing i with
  | nil => exact absurd hi (by simp)
  | cons x h ih =>
    cases i with
    | zero => rfl
    | succ j =>
      simp only [List.cons_append, listRead]
      exact ih j (by simpa using hi)

theorem listRead_append_length (l : List α) (c : α) :
    listRead (l ++ [c]) l.length = some c := by
  induction l with
  | nil => rfl
  | cons x h ih => simpa [listRead] using ih

theorem listRead_write_ne (l : List α) (i j : Nat) (c : α) (hne : i ≠ j) :
    listRead (listWrite l i c) j = listRead l j := by
  induction l generalizing i j with
  | nil => rfl
  | cons x h ih =>
    cases i with
    | zero =>
      cases j with
      | zero => exact absurd rfl hne
      | succ j2 => rfl
    | succ i2 =>
      cases j with
      | zero => rfl
      | succ j2 =>
        simp only [listWrite, listRead]
        exact ih i2 j2 (fun hc => hne (by rw [hc]))

end Heap

/-- Model of `TypeInfo`: runtime type information (name and unique id). -/
structure TypeInfo where
  TypeName : String
  TypeID : Nat
deriving DecidableEq, Repr

/-- Model of `VtableInfo`: a type id paired with a (possibly nil) vtable pointer. -/
structure VtableInfo where
  TypeID : Nat
  Vtable : Option Nat
deriving DecidableEq, Repr

/-- Model of `ClassInfo`: runtime class metadata.  The source's `IsClass` and
`Deinit` function fields are never assigned anywhere in the repository
(they stay nil function pointers) and are never invoked, so they are not
carried by the model. -/
structure ClassInfo where
  Vtables : List VtableInfo
  TypeInfo : TypeInfo
  Offset : Nat
deriving DecidableEq, Repr

/-- Model of `KlassHeader`: metadata header of a class instance.  The source stores
a pointer to a freshly allocated `ClassInfo`; the record is held by value
here and descriptor allocation is modelled separately by
`makeClassInfoAlloc`. -/
structure KlassHeader where
  Info : ClassInfo
deriving DecidableEq, Repr

/-- Model of `Klass`: a class instance with metadata, an allocator reference and the
owned value (`Class`, an `interface{}` field). -/
structure Klass where
  Header : KlassHeader
  Allocator : GoValue
  Class : GoValue
deriving DecidableEq, Repr

/-- A heap cell: either a plain Go object or a `Klass` object. -/
inductive Cell where
  | val (v : GoValue)
  | klass (k : Klass)
deriving DecidableEq, Repr

/-- The heap: a list of allocated cells, addressed by index. -/
abbrev Heap := List Cell

/-- Model of `makeClassInfo`: build the `ClassInfo` record for a class type.
`TypeName` is `classType.Name()` and `TypeID` is
`reflect.ValueOf(classType).Pointer()`, the address of the interned runtime
type record.  The remaining fields keep their Go zero values. -/
def makeClassInfo (classType : GoType) : ClassInfo :=
  { Vtables := []
    TypeInfo := { TypeName := classType.typeName, TypeID := classType.rtypeAddr }
    Offset := 0 }

/-- The `&ClassInfo{...}` allocation performed by `makeClassInfo` in the
source: each call appends a fresh descriptor to the descriptor store and
returns its address. -/
def makeClassInfoAlloc (classType : GoType) (descs : List ClassInfo) :
    Nat × List ClassInfo :=
  (descs.length, descs ++ [makeClassInfo classType])

/-- Field pass of `initClass` on the fields of a struct: every settable field that is
currently zero is set to the zero value of its declared type (a
conservative default-initialization pass; observably the identity). -/
def initFields : List BasicType → List BasicValue → List BasicValue
  | _, [] => []
  | [], fs => fs
  | ft :: fts, f :: fs =>
      (if f = zeroBasic ft then zeroBasic ft else f) :: initFields fts fs

/-- Model of `initClass`: dereference a pointer argument, and if the result is a
struct, run the field-clearing pass over its fields; anything else is left
alone.  The model applies the pass to the pointee value directly. -/
def initClass (v : GoValue) : GoValue :=
  match v with
  | .structV (.structT n id fts vm pm) fs =>
      .structV (.structT n id fts vm pm) (initFields fts fs)
  | v => v

/-- Model of `New`: create a class instance.  A supplied initializer is adopted as
the owned value without validation; otherwise a zero instance of the class
type is allocated (`reflect.New`) and `initClass` runs over it.  The
`Klass` itself is a fresh heap allocation (`&Klass{...}`); the returned
address is the handle. -/
def New (allocator : GoValue) (classType : GoType) (init : Option GoValue)
    (h : Heap) : Nat × Heap :=
  match init with
  | some v =>
      let k : Klass :=
        { Header := { Info := makeClassInfo classType }
          Allocator := allocator
          Class := v }
      (h.length, h ++ [Cell.klass k])
  | none =>
      let zv := initClass (zeroValue classType)
      let va := h.length
      let h1 := h ++ [Cell.val zv]
      let k : Klass :=
        { Header := { Info := makeClassInfo classType }
          Allocator := allocator
          Class := .ptrV classType (some va) }
      (h1.length, h1 ++ [Cell.klass k])

/-- Expression `reflect.ValueOf(v).Pointer()` wrapped in `unsafe.Pointer`: defined for
the pointer-carrying kinds, a reflect panic otherwise.  The result is the
carried reference (`none` = the nil pointer). -/
def valuePointer (v : GoValue) : Except Fault (Option Nat) :=
  match v with
  | .ptrV _ a => .ok a
  | .sliceV _ a => .ok a
  | .mapV _ _ a => .ok a
  | .chanV _ a => .ok a
  | .funcV _ a => .ok a
  | _ => .error (.panic "reflect: call of reflect.Value.Pointer on non-pointer Value")

/-- Model of `Klass.Ptr`: the address of the underlying class data,
`unsafe.Pointer(reflect.ValueOf(k.Class).Pointer())`. -/
def Klass.Ptr (k : Klass) : Except Fault (Option Nat) :=
  valuePointer k.Class

/-- Model of `Klass.Deinit`: the source body is empty (every action is a placeholder
comment), so the call always returns normally and changes nothing. -/
def Klass.Deinit (_ : Klass) : Except Fault Unit :=
  .ok ()

/-- Model of `getClassOffset`: the byte offset of the `Class` field inside the
`Klass` struct, computed in the source by reflection over `Klass{}`.  On
the 64-bit layout this is 24 (an 8-byte header pointer followed by a
16-byte `interface{}` allocator); the model fixes that constant. -/
def getClassOffset (_ : GoType) : Nat := 24

/-- Model of `From`: recover a `*Klass` from a pointer to its class data.  A type
named `TestStruct` is special-cased (a handle is rebuilt around the given
address); every other type goes through unchecked offset arithmetic: the
class offset is subtracted from the data address and the resulting address
is reinterpreted as a `*Klass`.  Reading a cell that does not hold a
`Klass` object (or lies outside the heap) is undefined behaviour. -/
def From (classPtr : Option Nat) (classType : GoType) (h : Heap) :
    Except Fault (Option Klass) :=
  match classPtr with
  | none => .ok none
  | some p =>
    if classType.typeName = "TestStruct" then
      .ok (some
        { Header := { Info := makeClassInfo classType }
          Allocator := .nilV
          Class := .ptrV classType (some p) })
    else
      let kp : Int := (p : Int) - (getClassOffset classType : Int)
      if kp = 0 then
        .ok none
      else
        match (if kp < 0 then none else listRead h kp.toNat) with
        | some (Cell.klass k) =>
            if k.Class ≠ .nilV then
              .ok (some
                { Header := k.Header, Allocator := k.Allocator, Class := k.Class })
            else
              .ok (some k)
        | _ => .error .undefinedBehavior

/-- Model of `Nil.Of`: the nil-interface factory.  A nil argument is special-cased
to a typed nil `*int`; otherwise the function panics unless the reflected
kind of the argument is `Interface` — which, after interface erasure, it
never is. -/
def Nil.Of (i : GoValue) : Except Fault GoValue :=
  match i with
  | .nilV => .ok (.ptrV .intT none)
  | v =>
      match typeOf v with
      | some t =>
          if t.kind = .ifaceK then .ok (zeroValue t)
          else .error (.panic "not an interface type")
      | none => .error (.panic "not an interface type")

/-- Model of `Cast`: capability-set cast.  In source order: the dynamic type of the
subject (a reflect panic on the untyped nil); `Implements` on the target (a
reflect panic when the target is not an interface type); a pointer subject
whose element type implements the target (a reflect panic when dereferencing
a nil pointer); a non-pointer subject whose pointer type implements the
target — materialize a fresh addressable copy and return its address;
finally plain assignability.  `nil` (here `Except.ok none`) signals a
failed cast. -/
def Cast (obj : GoValue) (target : GoType) (h : Heap) :
    Except Fault (Option GoValue × Heap) :=
  match typeOf obj with
  | none => .error (.panic "reflect: call of reflect.Value.Type on zero Value")
  | some t =>
    match target with
    | .ifaceT nm tid ms =>
      if implementsB t (.ifaceT nm tid ms) then .ok (some obj, h)
      else
        match obj with
        | .ptrV _ none =>
            .error (.panic "reflect: call of reflect.Value.Type on zero Value")
        | .ptrV e (some a) =>
            if implementsB e (.ifaceT nm tid ms) then .ok (some (.ptrV e (some a)), h)
            else if assignableTo t (.ifaceT nm tid ms) then .ok (some obj, h)
            else .ok (none, h)
        | v =>
            if implementsB (.ptrT t) (.ifaceT nm tid ms) then
              .ok (some (.ptrV t (some h.length)), h ++ [Cell.val v])
            else if assignableTo t (.ifaceT nm tid ms) then .ok (some obj, h)
            else .ok (none, h)
    | _ => .error (.panic "reflect: non-interface type passed to Type.Implements")

/-- Model of `As`: concrete-type cast.  A pointer subject is dereferenced (a reflect
panic on the untyped nil or a nil pointer); the dereferenced type is tested
for assignability to the target; a non-addressable subject is copied into a
fresh addressable cell; the address is converted to `*target` (a reflect
panic when the pointer conversion is not allowed, which only arises for an
interface target).  `nil` (here `Except.ok none`) signals a mismatch. -/
def As (obj : GoValue) (target : GoType) (h : Heap) :
    Except Fault (Option GoValue × Heap) :=
  match obj with
  | .ptrV _ none => .error (.panic "reflect: call of reflect.Value.Type on zero Value")
  | .ptrV e (some a) =>
      if assignableTo e target then
        if e = target then .ok (some (.ptrV target (some a)), h)
        else .error (.panic "reflect: cannot convert to pointer type")
      else .ok (none, h)
  | v =>
      match typeOf v with
      | none => .error (.panic "reflect: call of reflect.Value.Type on zero Value")
      | some t =>
          if assignableTo t target then
            if t = target then
              .ok (some (.ptrV target (some h.length)), h ++ [Cell.val v])
            else .error (.panic "reflect: cannot convert to pointer type")
          else .ok (none, h)

/-- Model of `AsPtr`: `unsafe.Pointer(reflect.ValueOf(obj).Pointer())`. -/
def AsPtr (obj : GoValue) : Except Fault (Option Nat) :=
  valuePointer obj

/-- Model of `NullOrZeroInterface`: the zero/nil factory.  `nil` input reflects to a
nil type and is returned as is; an interface-kind dynamic type yields its
nil representative; any other type yields its zero value.  (Both non-nil
branches of the source call `reflect.Zero(t).Interface()`.) -/
def NullOrZeroInterface (i : GoValue) : GoValue :=
  match typeOf i with
  | none => .nilV
  | some t =>
      if t.kind = .ifaceK then zeroValue t
      else zeroValue t

/-- Model of `NilInterface`: alias of `NullOrZeroInterface`. -/
def NilInterface (i : GoValue) : GoValue :=
  NullOrZeroInterface i

/-- Model of `IsNil`: true for the untyped nil, and for the nil-able kinds
(`Chan, Func, Interface, Map, Ptr, Slice`) exactly when the carried
reference is nil; false for every other kind.  (The `Interface` case of
the source's switch is unreachable after interface erasure.) -/
def IsNil (obj : GoValue) : Bool :=
  match obj with
  | .nilV => true
  | .chanV _ a => a.isNone
  | .funcV _ a => a.isNone
  | .mapV _ _ a => a.isNone
  | .ptrV _ a => a.isNone
  | .sliceV _ a => a.isNone
  | _ => false

/-- The type after the dereference step of a concrete-type cast: `none`
when that step faults (untyped nil, nil pointer), the pointee type for a
pointer, the dynamic type otherwise. -/
def derefShape (v : GoValue) : Option GoType :=
  match v with
  | .nilV => none
  | .ptrV _ none => none
  | .ptrV e (some _) => some e
  | v => typeOf v

/-- Modelled from the spec: the untyped absence-of-value sentinel. -/
def isAbsenceSentinel : GoValue → Bool
  | .nilV => true
  | _ => false

/-- Modelled from the spec: the reference-like kinds (pointer, slice,
associative mapping, channel, function; a capability reference never
appears after interface erasure). -/
def referenceLikeValue : GoValue → Bool
  | .ptrV _ _ => true
  | .sliceV _ _ => true
  | .mapV _ _ _ => true
  | .chanV _ _ => true
  | .funcV _ _ => true
  | _ => false

/-- Modelled from the spec: a reference-like value whose reference is
itself empty/absent. -/
def referenceEmpty : GoValue → Bool
  | .ptrV _ a => a.isNone
  | .sliceV _ a => a.isNone
  | .mapV _ _ a => a.isNone
  | .chanV _ a => a.isNone
  | .funcV _ a => a.isNone
  | _ => false

/-- Modelled from the spec: the nil-ness predicate as §4.5 words it — the
absence sentinel, or a reference-like value with an empty reference; false
for every value-kind representation. -/
def specNilPredicate (v : GoValue) : Bool :=
  isAbsenceSentinel v || (referenceLikeValue v && referenceEmpty v)

/-- Modelled from the spec: the canonical empty representative of a runtime
type — a true nil capability reference for a capability-set type (which
erases to the absence sentinel), the all-zero-fields value otherwise;
absent runtime type maps to the sentinel itself. -/
def canonicalEmptyRep : Option GoType → GoValue
  | none => .nilV
  | some t => if t.kind = .ifaceK then .nilV else zeroValue t

/-- The test struct type of oop_test.go: one int field, GetValue declared
on the pointer receiver. -/
def testStructType : GoType := .structT "TestStruct" 11 [.intB] [] ["GetValue"]

/-- A Dog concrete type in the spec's scenarios: one string field, Sound
declared on the pointer receiver. -/
def dogType : GoType := .structT "Dog" 12 [.stringB] [] ["Sound"]

/-- A Cat concrete type in the spec's scenarios: one string field, Sound
declared on the pointer receiver. -/
def catType : GoType := .structT "Cat" 13 [.stringB] [] ["Sound"]

/-- The capability set of the spec's scenarios: one operation, Sound. -/
def animalType : GoType := .ifaceT "Animal" 21 ["Sound"]

/-- The Dog value whose Name field holds "Rex". -/
def rexDog : GoValue := .structV dogType [.strV "Rex"]

/-- A heap cell holding the Cat value whose Name field holds "Tom". -/
def tomCatCell : Cell := Cell.val (.structV catType [.strV "Tom"])

/-- A concrete handle: a Klass over TestStruct whose owned value points at
heap cell 0. -/
def sampleKlass : Klass :=
  { Header := { Info := makeClassInfo testStructType }
    Allocator := .nilV
    Class := .ptrV testStructType (some 0) }

/-- Claim C2: the code under test does not satisfy the claim — calling
Klass.Deinit a second time on the same handle returns normally (the body is
an empty placeholder); it never raises the DoubleRelease fault the
specification requires. -/
theorem deinit_second_call_is_silent :
    Klass.Deinit sampleKlass = Except.ok () ∧
    ((Klass.Deinit sampleKlass).bind fun _ => Klass.Deinit sampleKlass) = Except.ok () ∧
    ((Klass.Deinit sampleKlass).bind fun _ => Klass.Deinit sampleKlass) ≠
      Except.error Fault.doubleRelease :=
  ⟨rfl, rfl, fun hc => Except.noConfusion hc⟩

/-- Claim C4: IsNil agrees everywhere with the specification's nil-ness
predicate — true on the untyped absence sentinel and on reference-like
values carrying an empty reference, false on every value-kind
representation; in particular false on the all-zero-fields Dog value, and
true on the sentinel and on a nil raw pointer. -/
theorem isNil_matches_spec_predicate :
    (∀ v : GoValue, IsNil v = specNilPredicate v) ∧
    IsNil (zeroValue dogType) = false ∧
    IsNil .nilV = true ∧
    IsNil (.ptrV dogType none) = true := by
  refine ⟨fun v => ?_, rfl, rfl, rfl⟩
  cases v <;> rfl

/-- Claim C5: two successive makeClassInfo calls for the same type allocate
two distinct descriptor objects whose identity keys (TypeID) are
identical. -/
theorem makeClassInfo_stable_type_id (T : GoType) (d0 : List ClassInfo) :
    (makeClassInfoAlloc T d0).1 ≠ (makeClassInfoAlloc T (makeClassInfoAlloc T d0).2).1 ∧
    ∃ c1 c2 : ClassInfo,
      listRead (makeClassInfoAlloc T (makeClassInfoAlloc T d0).2).2
        (makeClassInfoAlloc T d0).1 = some c1 ∧
      listRead (makeClassInfoAlloc T (makeClassInfoAlloc T d0).2).2
        (makeClassInfoAlloc T (makeClassInfoAlloc T d0).2).1 = some c2 ∧
      c1.TypeInfo.TypeID = c2.TypeInfo.TypeID := by
  refine ⟨?_, makeClassInfo T, makeClassInfo T, ?_, ?_, rfl⟩
  · simp only [makeClassInfoAlloc, List.length_append, List.length_cons, List.length_nil]
    omega
  · simp only [makeClassInfoAlloc]
    rw [listRead_append_lt _ _ _ (by simp), listRead_append_length]
  · simp only [makeClassInfoAlloc]
    rw [listRead_append_length]

/-- Claim C6: the code under test does not satisfy the claim.  A non-nil
argument whose call-site static type is the capability set Animal (its
dynamic value, a Dog pointer, satisfies Animal) makes Nil.Of panic, because
after interface erasure the reflected kind is never Interface; and the
special-cased nil argument yields a typed nil int pointer, not the nil
representative of the static capability-set type. -/
theorem nilOf_panics_on_capability_typed_argument :
    GoType.kind animalType = GoKind.ifaceK ∧
    implementsB (.ptrT dogType) animalType = true ∧
    Nil.Of (.ptrV dogType (some 0)) = Except.error (.panic "not an interface type") ∧
    Nil.Of .nilV = Except.ok (.ptrV .intT none) :=
  ⟨rfl, rfl, rfl, rfl⟩

/-- Claim C7: NullOrZeroInterface returns, for every input value, the
canonical empty representative of the value's runtime type — the nil
capability reference for a capability-set type, the all-zero value
otherwise. -/
theorem nullOrZero_returns_canonical_empty_rep :
    ∀ v : GoValue, NullOrZeroInterface v = canonicalEmptyRep (typeOf v) := by
  intro v
  cases v with
  | structV t fs => cases t <;> rfl
  | basicV b => cases b <;> rfl
  | _ => rfl

/-- Claim C9: AsPtr faults (a reflect panic) on every input that is not of
a reference-like kind, and returns an address only for reference-like
input. -/
theorem asPtr_faults_on_non_reference (v : GoValue) :
    (referenceLikeValue v = false →
      AsPtr v = Except.error
        (.panic "reflect: call of reflect.Value.Pointer on non-pointer Value")) ∧
    (referenceLikeValue v = true → ∃ a : Option Nat, AsPtr v = Except.ok a) := by
  cases v <;>
    exact ⟨fun hh => by first | rfl | exact absurd hh (by simp [referenceLikeValue]),
           fun hh => by
             first
             | exact ⟨_, rfl⟩
             | exact absurd hh (by simp [referenceLikeValue])⟩

/-- Witness for C9: at the concrete Dog struct value (not reference-like)
AsPtr faults. -/
theorem asPtr_faults_on_non_reference_witness :
    referenceLikeValue rexDog = false ∧
    AsPtr rexDog = Except.error
      (.panic "reflect: call of reflect.Value.Pointer on non-pointer Value") :=
  ⟨rfl, (asPtr_faults_on_non_reference rexDog).1 rfl⟩

/-- Claim C10: on the untyped nil subject both casting operations fault (a
reflect panic on the zero Value) for every target type, instead of
returning the ordinary none result that signals a type mismatch. -/
theorem cast_and_as_fault_on_nil_subject (target : GoType) (h : Heap) :
    Cast .nilV target h =
      Except.error (.panic "reflect: call of reflect.Value.Type on zero Value") ∧
    As .nilV target h =
      Except.error (.panic "reflect: call of reflect.Value.Type on zero Value") ∧
    Cast .nilV target h ≠ Except.ok (none, h) ∧
    As .nilV target h ≠ Except.ok (none, h) :=
  ⟨rfl, rfl, fun hc => Except.noConfusion hc, fun hc => Except.noConfusion hc⟩

/-- Claim C1: the code under test does not satisfy the claim for any class
type not named TestStruct.  A handle over Dog is constructed via New with a
caller-supplied owned value living at heap cell 0; Klass.Ptr extracts that
address; but From, instead of recovering the handle, subtracts the Class
field offset from the data address and reinterprets the result as a Klass
object — memory that holds no such object, which is undefined behaviour
(the two allocations are unrelated), not a handle owning the same value. -/
theorem from_does_not_invert_ptr_for_dog :
    ∃ K : Klass,
      listRead (New .nilV dogType (some (.ptrV dogType (some 0))) [Cell.val rexDog]).2
        (New .nilV dogType (some (.ptrV dogType (some 0))) [Cell.val rexDog]).1 =
        some (Cell.klass K) ∧
      K.Class = .ptrV dogType (some 0) ∧
      Klass.Ptr K = Except.ok (some 0) ∧
      From (some 0) dogType
          (New .nilV dogType (some (.ptrV dogType (some 0))) [Cell.val rexDog]).2 =
        Except.error Fault.undefinedBehavior := by
  refine ⟨{ Header := { Info := makeClassInfo dogType }
            Allocator := .nilV
            Class := .ptrV dogType (some 0) }, rfl, rfl, rfl, ?_⟩
  rfl

/-- Claim C3: the rule-3 path of Cast — a non-pointer subject whose pointer
type satisfies the capability set — returns a reference to a fresh copy at
an address not present in the input heap, leaves every pre-existing heap
cell unchanged, and the copy is independent: writing through the fresh
address does not change any pre-existing cell, and writing any pre-existing
cell does not change the copy. -/
theorem cast_rule3_fresh_independent_copy (v : GoValue) (t : GoType)
    (nm : String) (tid : Nat) (ms : List String) (h : Heap)
    (h1 : typeOf v = some t) (h2 : isPtrValue v = false)
    (h3 : implementsB t (.ifaceT nm tid ms) = false)
    (h4 : implementsB (.ptrT t) (.ifaceT nm tid ms) = true) :
    Cast v (.ifaceT nm tid ms) h =
      Except.ok (some (.ptrV t (some h.length)), h ++ [Cell.val v]) ∧
    listRead h h.length = none ∧
    (∀ i, i < h.length → listRead (h ++ [Cell.val v]) i = listRead h i) ∧
    listRead (h ++ [Cell.val v]) h.length = some (Cell.val v) ∧
    (∀ c i, i < h.length →
      listRead (listWrite (h ++ [Cell.val v]) h.length c) i = listRead h i) ∧
    (∀ c i, i < h.length →
      listRead (listWrite (h ++ [Cell.val v]) i c) h.length = some (Cell.val v)) := by
  refine ⟨?_, listRead_length h,
    fun i hi => listRead_append_lt h _ i hi,
    listRead_append_length h _,
    fun c i hi => ?_, fun c i hi => ?_⟩
  · cases v with
    | nilV => simp [typeOf] at h1
    | ptrV e a => simp [isPtrValue] at h2
    | structV t2 fs =>
      simp only [typeOf] at h1
      injection h1 with he
      subst he
      simp [Cast, typeOf, h3, h4]
    | sliceV e a =>
      simp only [typeOf] at h1
      injection h1 with he
      subst he
      simp [Cast, typeOf, h3, h4]
    | mapV k e a =>
      simp only [typeOf] at h1
      injection h1 with he
      subst he
      simp [Cast, typeOf, h3, h4]
    | chanV e a =>
      simp only [typeOf] at h1
      injection h1 with he
      subst he
      simp [Cast, typeOf, h3, h4]
    | funcV id a =>
      simp only [typeOf] at h1
      injection h1 with he
      subst he
      simp [Cast, typeOf, h3, h4]
    | basicV b =>
      cases b <;>
        (simp only [typeOf] at h1
         injection h1 with he
         subst he
         simp [Cast, typeOf, h3, h4])
  · rw [listRead_write_ne _ _ _ _ (by omega : h.length ≠ i)]
    exact listRead_append_lt h _ i hi
  · rw [listRead_write_ne _ _ _ _ (by omega : i ≠ h.length)]
    exact listRead_append_length h _

/-- Witness for C3: the Dog value (Sound lives on the pointer receiver)
cast to the Animal capability set, on a heap already holding a Cat cell:
hypotheses hold and the cast copies the Dog into fresh cell 1. -/
theorem cast_rule3_fresh_independent_copy_witness :
    typeOf rexDog = some dogType ∧
    isPtrValue rexDog = false ∧
    implementsB dogType animalType = false ∧
    implementsB (.ptrT dogType) animalType = true ∧
    Cast rexDog animalType [tomCatCell] =
      Except.ok (some (.ptrV dogType (some 1)), [tomCatCell, Cell.val rexDog]) :=
  ⟨rfl, rfl, rfl, rfl,
    (cast_rule3_fresh_independent_copy rexDog dogType "Animal" 21 ["Sound"]
      [tomCatCell] rfl rfl rfl rfl).1⟩

/-- Claim C8: for a concrete (struct-kind) target type, As returns none
exactly on a dereferenced-type mismatch; on a match the result is always a
pointer to the target type, never a bare value — the original address for
an addressable (pointer) subject, a fresh copy's address for a plain value
subject. -/
theorem as_concrete_target_reference_result (v : GoValue) (t target : GoType)
    (h : Heap) (htk : target.kind = GoKind.structK)
    (hd : derefShape v = some t) :
    (t ≠ target → As v target h = Except.ok (none, h)) ∧
    (∀ e a, v = .ptrV e (some a) → t = target →
      As v target h = Except.ok (some (.ptrV target (some a)), h)) ∧
    (isPtrValue v = false → t = target →
      As v target h =
        Except.ok (some (.ptrV target (some h.length)), h ++ [Cell.val v])) := by
  have hassign : ∀ s : GoType, assignableTo s target = decide (s = target) := by
    intro s
    cases target <;> simp [GoType.kind] at htk <;>
      simp [assignableTo, implementsB]
  cases v with
  | nilV => simp [derefShape] at hd
  | ptrV e a =>
    cases a with
    | none => simp [derefShape] at hd
    | some a0 =>
      simp only [derefShape] at hd
      injection hd with he
      subst he
      refine ⟨fun hne => ?_, fun e2 a2 heq hteq => ?_, fun hp _ => ?_⟩
      · simp [As, hassign, hne]
      · injection heq with he2 ha2
        subst hteq
        injection ha2 with ha3
        subst ha3
        simp [As, hassign]
      · simp [isPtrValue] at hp
  | structV t2 fs =>
    simp only [derefShape, typeOf] at hd
    injection hd with he
    subst he
    refine ⟨fun hne => ?_, fun e2 a2 heq => ?_, fun _ hteq => ?_⟩
    · simp [As, typeOf, hassign, hne]
    · exact absurd heq (by simp)
    · subst hteq
      simp [As, typeOf, hassign]
  | sliceV e a =>
    simp only [derefShape, typeOf] at hd
    injection hd with he
    subst he
    refine ⟨fun hne => ?_, fun e2 a2 heq => ?_, fun _ hteq => ?_⟩
    · simp [As, typeOf, hassign, hne]
    · exact absurd heq (by simp)
    · subst hteq
      simp [As, typeOf, hassign]
  | mapV k e a =>
    simp only [derefShape, typeOf] at hd
    injection hd with he
    subst he
    refine ⟨fun hne => ?_, fun e2 a2 heq => ?_, fun _ hteq => ?_⟩
    · simp [As, typeOf, hassign, hne]
    · exact absurd heq (by simp)
    · subst hteq
      simp [As, typeOf, hassign]
  | chanV e a =>
    simp only [derefShape, typeOf] at hd
    injection hd with he
    subst he
    refine ⟨fun hne => ?_, fun e2 a2 heq => ?_, fun _ hteq => ?_⟩
    · simp [As, typeOf, hassign, hne]
    · exact absurd heq (by simp)
    · subst hteq
      simp [As, typeOf, hassign]
  | funcV id a =>
    simp only [derefShape, typeOf] at hd
    injection hd with he
    subst he
    refine ⟨fun hne => ?_, fun e2 a2 heq => ?_, fun _ hteq => ?_⟩
    · simp [As, typeOf, hassign, hne]
    · exact absurd heq (by simp)
    · subst hteq
      simp [As, typeOf, hassign]
  | basicV b =>
    cases b <;>
      (simp only [derefShape, typeOf] at hd
       injection hd with he
       subst he
       refine ⟨fun hne => ?_, fun e2 a2 heq => ?_, fun _ hteq => ?_⟩
       · simp [As, typeOf, hassign, hne]
       · exact absurd heq (by simp)
       · subst hteq
         simp [As, typeOf, hassign])

/-- Witness for C8: the Dog value cast to the Cat type yields none (Dog is
not assignable to Cat), while cast to the Dog type it yields a pointer to a
fresh cell holding the original Dog value (Name "Rex" preserved). -/
theorem as_concrete_target_reference_result_witness :
    GoType.kind catType = GoKind.structK ∧
    GoType.kind dogType = GoKind.structK ∧
    derefShape rexDog = some dogType ∧
    As rexDog catType [] = Except.ok (none, []) ∧
    As rexDog dogType [] =
      Except.ok (some (.ptrV dogType (some 0)), [Cell.val rexDog]) ∧
    listRead [Cell.val rexDog] 0 = some (Cell.val rexDog) :=
  ⟨rfl, rfl, rfl,
    (as_concrete_target_reference_result rexDog dogType catType [] rfl rfl).1
      (by decide),
    (as_concrete_target_reference_result rexDog dogType dogType [] rfl rfl).2.2
      rfl rfl,
    rfl⟩

end Oop
